import Mathlib

/-!
Verification of the `shutdown-async` library (src/src/lib.rs).

The library couples a one-shot fan-out signal (a `tokio::sync::broadcast`
channel whose sender is dropped to fire) with a reference-counted completion
barrier (a `tokio::sync::mpsc` channel used only for its closing semantics).
We embed the two structs and their methods as pure functions over an explicit
`World` state; the resolution of each `await` is made explicit (an outcome
parameter for a single receive, readiness predicates for suspension points).
-/

namespace ShutdownAsync

/-- Error type of a broadcast receive, mirroring
`tokio::sync::broadcast::error::RecvError`: the channel can report that it is
closed (the sender was dropped) or that this receiver lagged behind. -/
inductive RecvError where
  | Closed : RecvError
  | Lagged : Nat → RecvError
deriving DecidableEq

/-- Channel operations a monitor method can perform, recorded so that a
theorem can state that a call does or does not touch the broadcast channel. -/
inductive ChanOp where
  | broadcast_recv : ChanOp
deriving DecidableEq

/-- State of one `broadcast::Receiver<()>` handle: the number of values queued
for this receiver.  In this library no value is ever sent on the broadcast
channel (shutdown is signalled by dropping the sender), so the queue stays
empty for every receiver ever created; the field is kept for faithfulness. -/
structure BroadcastReceiver where
  pending : Nat
deriving DecidableEq

/-- Embeds `struct ShutdownMonitor` from src/src/lib.rs.  The third field of
the Rust struct, the `_task_tracker : mpsc::Sender<()>` clone, carries no
data; its liveness is tracked by the containing `World`: a live monitor slot
holds exactly one clone. -/
structure ShutdownMonitor where
  shutdown_received : Bool
  shutdown_notifier : BroadcastReceiver
deriving DecidableEq

/-- Embeds `ShutdownMonitor::new`: stores the receiver and initializes
`shutdown_received` to `false`. -/
def ShutdownMonitor.new (shutdown_notifier : BroadcastReceiver) : ShutdownMonitor :=
  { shutdown_received := false, shutdown_notifier := shutdown_notifier }

/-- Embeds `ShutdownMonitor::is_shutdown`: returns the cached flag. -/
def ShutdownMonitor.is_shutdown (m : ShutdownMonitor) : Bool :=
  m.shutdown_received

/-- Instrumented view of `is_shutdown(&self)`: the returned value, the monitor
after the call (taken by shared reference, hence returned unchanged), and the
channel operations its body performs (none: the body is a plain field read). -/
def ShutdownMonitor.is_shutdownEff (m : ShutdownMonitor) :
    Bool × ShutdownMonitor × List ChanOp :=
  (m.is_shutdown, m, [])

/-- Embeds `ShutdownMonitor::recv`.  `res` is the resolution of the await on
`self.shutdown_notifier.recv()` for this call: an `Ok(())` delivery, which
consumed one queued value, or a `RecvError`.  Returns the monitor after the
call together with the channel operations performed; when
`shutdown_received` is already true the body returns before any channel
operation, and otherwise the channel result is discarded (`let _ = ...`) and
the flag is set. -/
def ShutdownMonitor.recv (m : ShutdownMonitor) (res : Except RecvError Unit) :
    ShutdownMonitor × List ChanOp :=
  if m.shutdown_received then
    (m, [])
  else
    let notifier :=
      match res with
      | Except.ok _ => { pending := m.shutdown_notifier.pending - 1 }
      | Except.error _ => m.shutdown_notifier
    ({ shutdown_received := true, shutdown_notifier := notifier },
      [ChanOp.broadcast_recv])

/-- Global state of one controller and everything it created: the two channel
pairs allocated by `ShutdownController::new`, plus one slot per monitor handed
out by `subscribe` (`none` once the owning task has dropped it).  A live slot
holds the monitor and, with it, one live clone of the `task_tracker` sender. -/
structure World where
  broadcast_capacity : Nat
  mpsc_capacity : Nat
  notify_sender_alive : Bool
  task_tracker_alive : Bool
  task_waiter_buffered : Nat
  monitors : List (Option ShutdownMonitor)
deriving DecidableEq

/-- Embeds `ShutdownController::new`: a fresh capacity-1 broadcast channel
(sender alive, no subscriber yet) and a fresh capacity-1 mpsc channel (the
controller holds the sole sender; nothing buffered, since no value is ever
sent on it). -/
def ShutdownController.new : World :=
  { broadcast_capacity := 1
    mpsc_capacity := 1
    notify_sender_alive := true
    task_tracker_alive := true
    task_waiter_buffered := 0
    monitors := [] }

/-- Embeds `impl Default for ShutdownController`: the body is `Self::new()`. -/
def ShutdownController.default : World :=
  ShutdownController.new

/-- Embeds `ShutdownController::subscribe`: binds a fresh broadcast receiver
(a new subscriber starts with nothing queued, as nothing is ever sent) and a
clone of `task_tracker` into a new monitor; returns the monitor and the world
extended with its live slot. -/
def ShutdownController.subscribe (w : World) : ShutdownMonitor × World :=
  let m := ShutdownMonitor.new { pending := 0 }
  (m, { w with monitors := w.monitors ++ [some m] })

/-- Number of live `task_tracker` mpsc sender clones: the controller's own
handle plus one per live monitor slot. -/
def World.trackerSenders (w : World) : Nat :=
  (if w.task_tracker_alive then 1 else 0) + (w.monitors.filterMap id).length

/-- Readiness of the `task_waiter.recv()` mpsc receive: it resolves when a
value is buffered (yielding `Some`) or every sender clone has been dropped
(yielding `None`); otherwise it suspends. -/
def World.taskWaiterReady (w : World) : Bool :=
  decide (0 < w.task_waiter_buffered) || decide (w.trackerSenders = 0)

/-- The three primitive effects in the body of `ShutdownController::shutdown`. -/
inductive ShutdownEvent where
  | drop_notify_shutdown : ShutdownEvent
  | drop_task_tracker : ShutdownEvent
  | await_task_waiter : ShutdownEvent
deriving DecidableEq

/-- Embeds `ShutdownController::shutdown` as its sequence of effects, each
paired with the world right after it: drop `notify_shutdown`, then drop the
controller's `task_tracker` clone, then suspend on `task_waiter.recv()` (the
suspension itself changes nothing; it resolves once `taskWaiterReady`). -/
def ShutdownController.shutdown (w : World) : List (ShutdownEvent × World) :=
  let w1 := { w with notify_sender_alive := false }
  let w2 := { w1 with task_tracker_alive := false }
  [(ShutdownEvent.drop_notify_shutdown, w1),
   (ShutdownEvent.drop_task_tracker, w2),
   (ShutdownEvent.await_task_waiter, w2)]

/-- World at the suspension point of `shutdown`: both of the controller's
sender handles have been dropped and it is awaiting `task_waiter.recv()`. -/
def ShutdownController.shutdownDrops (w : World) : World :=
  { w with notify_sender_alive := false, task_tracker_alive := false }

/-- Outcome the broadcast receive resolves with for monitor `m` in world `w`:
`none` when it would keep suspending (sender alive and nothing queued). -/
def World.notifierOutcome (w : World) (m : ShutdownMonitor) :
    Option (Except RecvError Unit) :=
  if 0 < m.shutdown_notifier.pending then some (Except.ok ())
  else if w.notify_sender_alive then none
  else some (Except.error RecvError.Closed)

/-- Effect on the world of a `recv()` call by the task owning monitor slot
`i`: an early return if the flag is set, no visible change while the call is
still suspended, and otherwise the monitor is replaced by the result of
`ShutdownMonitor.recv` at the resolved outcome. -/
def World.recvAt (w : World) (i : Nat) : World :=
  match w.monitors[i]? with
  | some (some m) =>
      if m.shutdown_received then w
      else
        match w.notifierOutcome m with
        | some res =>
            { w with monitors := w.monitors.set i (some (ShutdownMonitor.recv m res).1) }
        | none => w
  | _ => w

/-- The owning task drops monitor slot `i` (on any exit path), releasing the
monitor together with its `task_tracker` sender clone. -/
def World.dropAt (w : World) (i : Nat) : World :=
  { w with monitors := w.monitors.set i none }

/-- A public operation on the system, for stating state invariants. -/
inductive Op where
  | subscribe : Op
  | is_shutdownAt : Nat → Op
  | recvAt : Nat → Op
  | dropAt : Nat → Op
  | shutdown : Op
deriving DecidableEq

/-- Applies one public operation to the world (`is_shutdown` is a pure read). -/
def World.applyOp (w : World) : Op → World
  | Op.subscribe => (ShutdownController.subscribe w).2
  | Op.is_shutdownAt _ => w
  | Op.recvAt i => w.recvAt i
  | Op.dropAt i => w.dropAt i
  | Op.shutdown => ShutdownController.shutdownDrops w

/-- Applies a sequence of public operations, left to right. -/
def World.applyOps (w : World) (ops : List Op) : World :=
  ops.foldl World.applyOp w

/-- Slot `i` exists, and if it still holds a live monitor the monitor's
`shutdown_received` flag is set.  A set flag may disappear with its monitor
when the task drops it, but may never revert to `false` on a live monitor. -/
def World.flagSticky (w : World) (i : Nat) : Bool :=
  match w.monitors[i]? with
  | some (some m) => m.shutdown_received
  | some none => true
  | none => false

/-- Events produced by the subscribed tasks: a task may complete `recv()`
calls on its monitor, and eventually drops it when it terminates. -/
inductive TaskEvent where
  | recv : Nat → TaskEvent
  | drop : Nat → TaskEvent
deriving DecidableEq

/-- Applies one task event to the world. -/
def World.applyTaskEvent (w : World) : TaskEvent → World
  | TaskEvent.recv i => w.recvAt i
  | TaskEvent.drop i => w.dropAt i

/-- Applies a sequence of task events, left to right. -/
def World.applyTaskEvents (w : World) (es : List TaskEvent) : World :=
  es.foldl World.applyTaskEvent w

/-- World after `n` successive `subscribe` calls. -/
def World.subscribeN (w : World) : Nat → World
  | 0 => w
  | n + 1 => (ShutdownController.subscribe (w.subscribeN n)).2

/-! Helper lemmas shared by several proofs. -/

/-- A completed `recv` always leaves the flag set, whatever the outcome. -/
theorem ShutdownMonitor.recv_flag (m : ShutdownMonitor) (res : Except RecvError Unit) :
    (ShutdownMonitor.recv m res).1.shutdown_received = true := by
  unfold ShutdownMonitor.recv
  by_cases h : m.shutdown_received
  · simp [h]
  · cases res <;> simp [h]

/-- When the flag is already set, `recv` is an identity with no channel op. -/
theorem ShutdownMonitor.recv_of_received (m : ShutdownMonitor)
    (res : Except RecvError Unit) (h : m.shutdown_received = true) :
    ShutdownMonitor.recv m res = (m, []) := by
  unfold ShutdownMonitor.recv
  simp [h]

/-! Claim theorems. -/

/-- C1: after a completed `recv()` call, the monitor's `shutdown_received`
flag is true — hence an immediately following `is_shutdown()` returns true —
for every monitor and whatever the broadcast receive yielded (a value, a
closed error, or a lag error), and also when `recv` returned early because
the flag was already set. -/
theorem recv_sets_shutdown_received (m : ShutdownMonitor)
    (res : Except RecvError Unit) :
    (ShutdownMonitor.recv m res).1.is_shutdown = true :=
  ShutdownMonitor.recv_flag m res

/-- C2: `shutdown()` performs exactly three effects in this order: drop
`notify_shutdown` (firing the fan-out event), drop the controller's own
`task_tracker` clone, and only then suspend on `task_waiter.recv()`; the
broadcast sender is dead from the first step on, and both sender handles are
dead at the suspension point. -/
theorem shutdown_step_order (w : World) :
    (ShutdownController.shutdown w).map Prod.fst =
      [ShutdownEvent.drop_notify_shutdown, ShutdownEvent.drop_task_tracker,
        ShutdownEvent.await_task_waiter] ∧
    ∃ w1 w2,
      ShutdownController.shutdown w =
        [(ShutdownEvent.drop_notify_shutdown, w1),
         (ShutdownEvent.drop_task_tracker, w2),
         (ShutdownEvent.await_task_waiter, w2)] ∧
      w1.notify_sender_alive = false ∧
      w1.task_tracker_alive = w.task_tracker_alive ∧
      w1.monitors = w.monitors ∧
      w2 = ShutdownController.shutdownDrops w := by
  refine ⟨rfl, { w with notify_sender_alive := false },
    ShutdownController.shutdownDrops w, rfl, rfl, rfl, rfl, rfl⟩

/-- C4: `recv()` is idempotent once the signal has been observed: on a
monitor whose flag is already true it returns at once with no broadcast
channel operation and an unchanged monitor, and in particular a second
`recv()` call right after any first one is such an identity. -/
theorem recv_idempotent_after_signal (m : ShutdownMonitor)
    (res res2 : Except RecvError Unit) :
    (m.shutdown_received = true → ShutdownMonitor.recv m res = (m, [])) ∧
    ShutdownMonitor.recv (ShutdownMonitor.recv m res).1 res2 =
      ((ShutdownMonitor.recv m res).1, []) := by
  constructor
  · exact fun h => ShutdownMonitor.recv_of_received m res h
  · exact ShutdownMonitor.recv_of_received _ res2 (ShutdownMonitor.recv_flag m res)

/-- Witness for C4 at a concrete already-signalled monitor. -/
theorem recv_idempotent_after_signal_witness :
    ShutdownMonitor.recv ⟨true, ⟨0⟩⟩ (Except.error RecvError.Closed) =
      ((⟨true, ⟨0⟩⟩ : ShutdownMonitor), []) :=
  (recv_idempotent_after_signal ⟨true, ⟨0⟩⟩ (Except.error RecvError.Closed)
    (Except.ok ())).1 rfl

/-- C6: a monitor freshly returned by `subscribe()` has
`shutdown_received = false`, so `is_shutdown()` on it reports false. -/
theorem subscribe_monitor_not_shutdown (w : World) :
    (ShutdownController.subscribe w).1.is_shutdown = false ∧
    (ShutdownController.subscribe w).1.shutdown_received = false :=
  ⟨rfl, rfl⟩

/-- C7: `recv()` surfaces no error: its result carries no error component,
and every broadcast error outcome — closed or lagged, by any amount — is
absorbed identically: the call still completes with the flag set and the
receiver state untouched, exactly as for the closed case. -/
theorem recv_absorbs_channel_errors (m : ShutdownMonitor) (e : RecvError) :
    (ShutdownMonitor.recv m (Except.error e)).1.shutdown_received = true ∧
    ShutdownMonitor.recv m (Except.error e) =
      ShutdownMonitor.recv m (Except.error RecvError.Closed) := by
  refine ⟨ShutdownMonitor.recv_flag m _, ?_⟩
  unfold ShutdownMonitor.recv
  by_cases h : m.shutdown_received <;> simp [h]

/-- C8: `is_shutdown()` is a pure, non-suspending read: it returns exactly
the cached `shutdown_received` flag, performs no channel operation, and
leaves every field of the monitor unchanged. -/
theorem is_shutdown_pure_read (m : ShutdownMonitor) :
    m.is_shutdown = m.shutdown_received ∧
    m.is_shutdownEff = (m.shutdown_received, m, ([] : List ChanOp)) :=
  ⟨rfl, rfl⟩

/-- C10: `Default::default()` delegates to `new()`: both entry points yield
the same initial state — live sender handles, nothing buffered, no monitors,
and both channels created with capacity 1. -/
theorem default_eq_new :
    ShutdownController.default = ShutdownController.new ∧
    ShutdownController.new.broadcast_capacity = 1 ∧
    ShutdownController.new.mpsc_capacity = 1 ∧
    ShutdownController.new.notify_sender_alive = true ∧
    ShutdownController.new.task_tracker_alive = true ∧
    ShutdownController.new.task_waiter_buffered = 0 ∧
    ShutdownController.new.monitors = [] :=
  ⟨rfl, rfl, rfl, rfl, rfl, rfl, rfl⟩

/-- Frame lemma: a `recv()` on slot `i` leaves every other slot unchanged. -/
theorem World.recvAt_frame (w : World) (i j : Nat) (h : i ≠ j) :
    (w.recvAt i).monitors[j]? = w.monitors[j]? := by
  unfold World.recvAt
  cases hg : w.monitors[i]? with
  | none => rfl
  | some o =>
    cases o with
    | none => rfl
    | some m =>
      by_cases hr : m.shutdown_received
      · simp [hr]
      · cases ho : w.notifierOutcome m with
        | none => simp [hr, ho]
        | some res => simp [hr, ho, List.getElem?_set_ne h]

/-- C9: monitors from the same controller are independent: a completed
`recv()` on slot `i` leaves every other slot `j` exactly as it was, and in
particular the other monitor's `is_shutdown()` result is unchanged. -/
theorem recv_independent (w : World) (i j : Nat) (h : i ≠ j) :
    (w.recvAt i).monitors[j]? = w.monitors[j]? ∧
    ((w.recvAt i).monitors[j]?).map (Option.map ShutdownMonitor.is_shutdown) =
      (w.monitors[j]?).map (Option.map ShutdownMonitor.is_shutdown) := by
  refine ⟨World.recvAt_frame w i j h, ?_⟩
  rw [World.recvAt_frame w i j h]

/-- Witness for C9 at a concrete two-monitor world where slot 0 completes a
`recv()` (the broadcast sender is already dropped, so the call resolves). -/
theorem recv_independent_witness :
    ((⟨1, 1, false, true, 0,
        [some ⟨false, ⟨0⟩⟩, some ⟨false, ⟨0⟩⟩]⟩ : World).recvAt 0).monitors[1]? =
      (⟨1, 1, false, true, 0,
        [some ⟨false, ⟨0⟩⟩, some ⟨false, ⟨0⟩⟩]⟩ : World).monitors[1]? :=
  (recv_independent _ 0 1 (by decide)).1

/-- The stickiness of slot `i` depends only on the slot's contents. -/
theorem World.flagSticky_congr {w w' : World} {i : Nat}
    (h : w'.monitors[i]? = w.monitors[i]?) : w'.flagSticky i = w.flagSticky i := by
  unfold World.flagSticky
  rw [h]

/-- A `recv()` on a slot that is already sticky changes nothing: either the
slot was dropped, or its monitor's flag is set and `recv` returns early. -/
theorem World.recvAt_of_sticky (w : World) (i : Nat)
    (h : w.flagSticky i = true) : w.recvAt i = w := by
  unfold World.recvAt
  split
  · rename_i m hm
    unfold World.flagSticky at h
    rw [hm] at h
    have h' : m.shutdown_received = true := h
    simp [h']
  · rfl

/-- Stickiness of a slot survives every single public operation. -/
theorem World.flagSticky_applyOp (w : World) (i : Nat) (op : Op)
    (h : w.flagSticky i = true) : (w.applyOp op).flagSticky i = true := by
  have hsome : ∃ o, w.monitors[i]? = some o := by
    unfold World.flagSticky at h
    cases hg : w.monitors[i]? with
    | none => rw [hg] at h; exact absurd h (by simp)
    | some o => exact ⟨o, rfl⟩
  obtain ⟨o, hg⟩ := hsome
  have hlt : i < w.monitors.length := (List.getElem?_eq_some_iff.mp hg).1
  cases op with
  | subscribe =>
      have hslot : ((w.applyOp Op.subscribe)).monitors[i]? = w.monitors[i]? := by
        show (w.monitors ++ [some (ShutdownMonitor.new ⟨0⟩)])[i]? = w.monitors[i]?
        exact List.getElem?_append_left hlt
      rw [World.flagSticky_congr hslot]; exact h
  | is_shutdownAt k => exact h
  | recvAt j =>
      by_cases hij : j = i
      · subst hij
        show (w.recvAt j).flagSticky j = true
        rw [World.recvAt_of_sticky w j h]; exact h
      · have hslot : (w.recvAt j).monitors[i]? = w.monitors[i]? :=
          World.recvAt_frame w j i hij
        show (w.recvAt j).flagSticky i = true
        rw [World.flagSticky_congr hslot]; exact h
  | dropAt j =>
      by_cases hij : j = i
      · subst hij
        show (w.dropAt j).flagSticky j = true
        unfold World.dropAt World.flagSticky
        rw [List.getElem?_set_self hlt]
      · have hslot : (w.dropAt j).monitors[i]? = w.monitors[i]? := by
          show (w.monitors.set j none)[i]? = w.monitors[i]?
          exact List.getElem?_set_ne hij
        show (w.dropAt j).flagSticky i = true
        rw [World.flagSticky_congr hslot]; exact h
  | shutdown =>
      have hslot : (ShutdownController.shutdownDrops w).monitors[i]? =
          w.monitors[i]? := rfl
      show (ShutdownController.shutdownDrops w).flagSticky i = true
      rw [World.flagSticky_congr hslot]; exact h

/-- C5: once a monitor's `shutdown_received` flag is true it never reverts:
after any sequence of public operations (subscribe, is_shutdown reads, recv,
monitor drops, shutdown) the slot either still holds a monitor with the flag
set or has been dropped — no operation yields a live monitor there with the
flag cleared. -/
theorem shutdown_received_never_reverts (w : World) (i : Nat) (ops : List Op)
    (h : w.flagSticky i = true) : (w.applyOps ops).flagSticky i = true := by
  induction ops generalizing w with
  | nil => exact h
  | cons op tl ih => exact ih (w.applyOp op) (World.flagSticky_applyOp w i op h)

/-- Witness for C5: a concrete world whose single monitor has observed the
signal, run through a recv, a subscribe, the shutdown drops and a drop. -/
theorem shutdown_received_never_reverts_witness :
    (⟨1, 1, true, true, 0, [some ⟨true, ⟨0⟩⟩]⟩ : World).flagSticky 0 = true ∧
    ((⟨1, 1, true, true, 0, [some ⟨true, ⟨0⟩⟩]⟩ : World).applyOps
        [Op.recvAt 0, Op.subscribe, Op.shutdown, Op.dropAt 0]).flagSticky 0 = true :=
  ⟨by decide, shutdown_received_never_reverts _ 0 _ (by decide)⟩

/-- A `recv()` never changes the number of monitor slots. -/
theorem World.recvAt_length (w : World) (i : Nat) :
    (w.recvAt i).monitors.length = w.monitors.length := by
  unfold World.recvAt
  split
  · split
    · rfl
    · split
      · simp
      · rfl
  · rfl

/-- Dropping a monitor never changes the number of monitor slots. -/
theorem World.dropAt_length (w : World) (i : Nat) :
    (w.dropAt i).monitors.length = w.monitors.length := by
  simp [World.dropAt]

/-- Task events never change the number of monitor slots. -/
theorem World.applyTaskEvent_length (w : World) (e : TaskEvent) :
    (w.applyTaskEvent e).monitors.length = w.monitors.length := by
  cases e with
  | recv i => exact World.recvAt_length w i
  | drop i => exact World.dropAt_length w i

/-- Sequences of task events never change the number of monitor slots. -/
theorem World.applyTaskEvents_length (w : World) (es : List TaskEvent) :
    (w.applyTaskEvents es).monitors.length = w.monitors.length := by
  induction es generalizing w with
  | nil => rfl
  | cons e tl ih =>
      calc (w.applyTaskEvents (e :: tl)).monitors.length
          = (w.applyTaskEvent e).monitors.length := ih _
        _ = w.monitors.length := World.applyTaskEvent_length w e

/-- A dropped slot stays dropped under any task event. -/
theorem World.applyTaskEvent_none (w : World) (e : TaskEvent) (i : Nat)
    (h : w.monitors[i]? = some none) :
    (w.applyTaskEvent e).monitors[i]? = some none := by
  have hlt : i < w.monitors.length := (List.getElem?_eq_some_iff.mp h).1
  cases e with
  | recv j =>
      by_cases hij : j = i
      · subst hij
        have hst : w.flagSticky j = true := by
          unfold World.flagSticky
          rw [h]
        show (w.recvAt j).monitors[j]? = some none
        rw [World.recvAt_of_sticky w j hst]
        exact h
      · show (w.recvAt j).monitors[i]? = some none
        rw [World.recvAt_frame w j i hij]
        exact h
  | drop j =>
      by_cases hij : j = i
      · subst hij
        show (w.monitors.set j none)[j]? = some none
        exact List.getElem?_set_self hlt
      · show (w.monitors.set j none)[i]? = some none
        rw [List.getElem?_set_ne hij]
        exact h

/-- A dropped slot stays dropped under any sequence of task events. -/
theorem World.applyTaskEvents_none (w : World) (es : List TaskEvent) (i : Nat)
    (h : w.monitors[i]? = some none) :
    (w.applyTaskEvents es).monitors[i]? = some none := by
  induction es generalizing w with
  | nil => exact h
  | cons e tl ih => exact ih _ (World.applyTaskEvent_none w e i h)

/-- Once a sequence of task events contains the drop of slot `i`, the slot is
dropped in the final world. -/
theorem World.applyTaskEvents_dropped (i : Nat) :
    ∀ (es : List TaskEvent) (w : World), i < w.monitors.length →
      TaskEvent.drop i ∈ es →
      (w.applyTaskEvents es).monitors[i]? = some none := by
  intro es
  induction es with
  | nil => intro w _ hmem; exact absurd hmem (List.not_mem_nil _)
  | cons e tl ih =>
      intro w hlt hmem
      rcases List.mem_cons.mp hmem with he | htl
      · subst he
        exact World.applyTaskEvents_none _ tl i (List.getElem?_set_self hlt)
      · have hlt' : i < (w.applyTaskEvent e).monitors.length := by
          rw [World.applyTaskEvent_length]; exact hlt
        exact ih (w.applyTaskEvent e) hlt' htl

/-- A list of option slots that is `some none` at every index filters to the
empty list of live elements. -/
theorem filterMap_id_eq_nil {α : Type} (l : List (Option α))
    (h : ∀ i, i < l.length → l[i]? = some none) : l.filterMap id = [] := by
  induction l with
  | nil => rfl
  | cons a tl ih =>
      have h0 : a = none := by
        have h0' := h 0 (Nat.succ_pos _)
        simpa using h0'
      subst h0
      have htl : ∀ i, i < tl.length → tl[i]? = some none := by
        intro i hi
        have hi' := h (i + 1) (Nat.succ_lt_succ hi)
        simpa using hi'
      simpa using ih htl

/-- A `recv()` never touches the controller's `task_tracker` handle. -/
theorem World.recvAt_tracker (w : World) (i : Nat) :
    (w.recvAt i).task_tracker_alive = w.task_tracker_alive := by
  unfold World.recvAt
  split
  · split
    · rfl
    · split <;> rfl
  · rfl

/-- A `recv()` never touches the mpsc buffer. -/
theorem World.recvAt_buffered (w : World) (i : Nat) :
    (w.recvAt i).task_waiter_buffered = w.task_waiter_buffered := by
  unfold World.recvAt
  split
  · split
    · rfl
    · split <;> rfl
  · rfl

/-- Task events never touch the controller's `task_tracker` handle. -/
theorem World.applyTaskEvents_tracker (w : World) (es : List TaskEvent) :
    (w.applyTaskEvents es).task_tracker_alive = w.task_tracker_alive := by
  induction es generalizing w with
  | nil => rfl
  | cons e tl ih =>
      have h1 : (w.applyTaskEvent e).task_tracker_alive = w.task_tracker_alive := by
        cases e with
        | recv i => exact World.recvAt_tracker w i
        | drop i => rfl
      calc (w.applyTaskEvents (e :: tl)).task_tracker_alive
          = (w.applyTaskEvent e).task_tracker_alive := ih _
        _ = w.task_tracker_alive := h1

/-- Task events never touch the mpsc buffer. -/
theorem World.applyTaskEvents_buffered (w : World) (es : List TaskEvent) :
    (w.applyTaskEvents es).task_waiter_buffered = w.task_waiter_buffered := by
  induction es generalizing w with
  | nil => rfl
  | cons e tl ih =>
      have h1 : (w.applyTaskEvent e).task_waiter_buffered = w.task_waiter_buffered := by
        cases e with
        | recv i => exact World.recvAt_buffered w i
        | drop i => rfl
      calc (w.applyTaskEvents (e :: tl)).task_waiter_buffered
          = (w.applyTaskEvent e).task_waiter_buffered := ih _
        _ = w.task_waiter_buffered := h1

/-- Each `subscribe` adds exactly one monitor slot. -/
theorem World.subscribeN_length (w : World) (n : Nat) :
    (w.subscribeN n).monitors.length = w.monitors.length + n := by
  induction n with
  | zero => rfl
  | succ k ih =>
      show ((w.subscribeN k).monitors ++
        [some (ShutdownMonitor.new ⟨0⟩)]).length = w.monitors.length + (k + 1)
      rw [List.length_append, ih]
      rfl

/-- Subscriptions never touch the mpsc buffer. -/
theorem World.subscribeN_buffered (w : World) (n : Nat) :
    (w.subscribeN n).task_waiter_buffered = w.task_waiter_buffered := by
  induction n with
  | zero => rfl
  | succ k ih => exact ih

/-- C3: liveness of `shutdown()` — for any number `n` of subscribed monitors
and any sequence of task events in which every monitor is eventually dropped,
with or without prior `recv()` calls, the `task_waiter.recv()` await inside
`shutdown()` becomes ready (all sender clones are gone), so `shutdown()`
returns instead of suspending forever. -/
theorem shutdown_completes (n : Nat) (es : List TaskEvent)
    (hdrop : ∀ i, i < n → TaskEvent.drop i ∈ es) :
    ((ShutdownController.shutdownDrops
        (World.subscribeN ShutdownController.new n)).applyTaskEvents
      es).taskWaiterReady = true := by
  set w0 := ShutdownController.shutdownDrops
    (World.subscribeN ShutdownController.new n) with hw0
  set wf := w0.applyTaskEvents es with hwf
  have hlen0 : w0.monitors.length = n := by
    rw [hw0]
    show (World.subscribeN ShutdownController.new n).monitors.length = n
    rw [World.subscribeN_length]
    exact Nat.zero_add n
  have hlenf : wf.monitors.length = n := by
    rw [hwf, World.applyTaskEvents_length, hlen0]
  have hnone : ∀ i, i < n → wf.monitors[i]? = some none := by
    intro i hi
    exact World.applyTaskEvents_dropped i es w0
      (by rw [hlen0]; exact hi) (hdrop i hi)
  have hfm : wf.monitors.filterMap id = [] := by
    apply filterMap_id_eq_nil
    intro i hi
    exact hnone i (by rw [hlenf] at hi; exact hi)
  have htr : wf.task_tracker_alive = false := by
    rw [hwf, World.applyTaskEvents_tracker]
    rfl
  have hbu : wf.task_waiter_buffered = 0 := by
    rw [hwf, World.applyTaskEvents_buffered, hw0]
    show (World.subscribeN ShutdownController.new n).task_waiter_buffered = 0
    rw [World.subscribeN_buffered]
    rfl
  unfold World.taskWaiterReady World.trackerSenders
  rw [htr, hbu, hfm]
  simp

/-- Witness for C3: two monitors, the first completing a `recv()` before both
are dropped; the completion barrier is then ready. -/
theorem shutdown_completes_witness :
    (∀ i, i < 2 → TaskEvent.drop i ∈
        [TaskEvent.recv 0, TaskEvent.drop 0, TaskEvent.drop 1]) ∧
    ((ShutdownController.shutdownDrops
        (World.subscribeN ShutdownController.new 2)).applyTaskEvents
      [TaskEvent.recv 0, TaskEvent.drop 0, TaskEvent.drop 1]).taskWaiterReady
      = true :=
  ⟨by decide, shutdown_completes 2 _ (by decide)⟩

end ShutdownAsync
